import Mathlib

/-!
Verification model of the sondra-client library (`src/sondra.js`).

The development embeds, as executable Lean definitions:
* the JSON-like values exchanged with the transport (`JVal`);
* the immutable request context (`CtxCore`, the fields of `DefaultContext`)
  together with URL computation (`calcUrlString`, `Sondra.calculateUrl`)
  and the navigation operations (`Sondra.suite`, `Sondra.app`,
  `Sondra.collection`, `Sondra.document`, `Sondra.method`);
* the `QuerySet.value` renderers and the request builders of
  `Sondra.call` / `Sondra.robustCall`;
* the single-attempt response chain of `Sondra.call`;
* the resilient retry state machine of `Sondra.robustCall`, as a
  fuel-indexed interpreter over a trace of probe and fetch outcomes that
  tracks, invocation by invocation, request-id assignment, observer
  invocations, physical attempts, and promise settlement.

In JavaScript a field such as `url` can hold any value; the `url` field is
modelled by `UrlVal`, which is either a string or a whole context record
(the latter arises in `Sondra.suite`, which stores the result of
`calculateUrl()` — a context — into the field).
-/

/-- A JSON-like value: the bodies, parsed responses and error values that the
client exchanges with the transport. -/
inductive JVal : Type where
  | null : JVal
  | bool (b : Bool) : JVal
  | num (n : Int) : JVal
  | str (s : String) : JVal
  | arr (xs : List JVal) : JVal
  | obj (fields : List (String × JVal)) : JVal

/-- Escape a character the way lodash `_.escape` does (HTML entities for
`&`, `<`, `>`, `"` and the apostrophe). -/
def lodashEscapeChar (c : Char) : String :=
  if c = '&' then "&amp;"
  else if c = '<' then "&lt;"
  else if c = '>' then "&gt;"
  else if c = '"' then "&quot;"
  else if c = Char.ofNat 39 then "&#39;"
  else String.singleton c

/-- lodash `_.escape` over a whole string. -/
def lodashEscape (s : String) : String :=
  String.join (s.toList.map lodashEscapeChar)

/-- `responseFormat` (src/sondra.js lines 26-30): render the format-parameter
object as `escapedKey=escapedValue` pairs joined by `;`, in insertion order. -/
def responseFormat (fmt : List (String × String)) : String :=
  String.intercalate ";" (fmt.map (fun p => lodashEscape p.1 ++ "=" ++ lodashEscape p.2))

/-- The JavaScript truthiness test applied by `calculateUrl` to the
`app` / `collection` / `document` / `method` fields (`if(app) ...`):
a field is truthy when it is non-null and not the empty string. -/
def truthyStr : Option String → Bool
  | none => false
  | some s => s ≠ ""

/-- The fields of the immutable request context (`DefaultContext` Record in
src/sondra.js lines 265-290), parameterized by the type of the `url` field,
which in JavaScript can hold a value of any shape. -/
structure CtxCore (U : Type) where
  protocol : String
  host : String
  port : String
  mode : String
  compress : Bool
  url : U
  basePath : List String
  headers : List (String × String)
  additionalRequestOptions : List (String × JVal)
  requestMethod : String
  app : Option String
  collection : Option String
  document : Option String
  method : Option String
  params : List (String × String)
  body : List (String × JVal)
  querySet : List (String × JVal)
  maxTries : Nat
  refetchDelay : Nat
  pingPath : String

/-- The value stored in the `url` field of a context: normally a string, but
`Sondra.suite` stores a whole context record (whose own `url` slot holds the
computed string) there. -/
inductive UrlVal : Type where
  | str (s : String) : UrlVal
  | record (c : CtxCore UrlVal) : UrlVal

/-- A Sondra request context (instance of the `DefaultContext` Record). -/
def Sondra : Type := CtxCore UrlVal

/-- `true` iff the `url` field currently holds a string. -/
def UrlVal.isStr : UrlVal → Bool
  | .str _ => true
  | .record _ => false

/-- The default base path (`DefaultBasePath = List(['api'])`). -/
def DefaultBasePath : List String := ["api"]

/-- The default context (`DefaultContext` Record defaults,
src/sondra.js lines 265-290). -/
def DefaultContext : Sondra where
  protocol := "https"
  host := "localhost"
  port := "443"
  mode := "cors"
  compress := true
  url := .str ""
  basePath := DefaultBasePath
  headers := []
  additionalRequestOptions := []
  requestMethod := "GET"
  app := none
  collection := none
  document := none
  method := none
  params := [("format", "json")]
  body := []
  querySet := []
  maxTries := 10
  refetchDelay := 1500
  pingPath := "/ping"

/-- The URL string computed by `Sondra.calculateUrl`
(src/sondra.js lines 301-319): scheme/host/port, the base path segments
joined by `/`, then `/{app}`, `/{collection}`, `/{document}` for each truthy
selector, `.{method}` if the method is truthy, then `;` and the rendered
format parameters. -/
def calcUrlString (c : CtxCore UrlVal) : String :=
  let openingPath := String.intercalate "/" c.basePath
  let url0 := c.protocol ++ "://" ++ c.host ++ ":" ++ c.port ++ "/" ++ openingPath
  let url1 := if truthyStr c.app then url0 ++ "/" ++ c.app.getD "" else url0
  let url2 := if truthyStr c.collection then url1 ++ "/" ++ c.collection.getD "" else url1
  let url3 := if truthyStr c.document then url2 ++ "/" ++ c.document.getD "" else url2
  let url4 := if truthyStr c.method then url3 ++ "." ++ c.method.getD "" else url3
  url4 ++ ";" ++ responseFormat c.params

/-- `Sondra.calculateUrl` (src/sondra.js lines 301-319): returns the context
with the `url` field set to the computed URL string. -/
def Sondra.calculateUrl (c : CtxCore UrlVal) : Sondra :=
  { c with url := .str (calcUrlString c) }

/-- `Sondra.suite` (src/sondra.js lines 293-299): merge the new protocol,
host and port (the `basePath` parameter is accepted but never used by the
source), then store `s.calculateUrl()` — a whole context record, not a
string — into the `url` field via `s.set('url', s.calculateUrl())`. -/
def Sondra.suite (c : CtxCore UrlVal) (protocol host port : String)
    (basePath : List String := DefaultBasePath) : Sondra :=
  let _ := basePath
  let s : CtxCore UrlVal := { c with protocol := protocol, host := host, port := port }
  { s with url := .record (Sondra.calculateUrl s) }

/-- `Sondra.app` (src/sondra.js lines 340-348): select an app, clearing
collection, document, method and the pending body, then recompute the URL. -/
def Sondra.app (c : CtxCore UrlVal) (name : String) : Sondra :=
  Sondra.calculateUrl
    { c with
      app := some name
      collection := none
      document := none
      method := none
      body := [] }

/-- `Sondra.collection` (src/sondra.js lines 350-357): select a collection,
clearing document, method and the pending body, then recompute the URL. -/
def Sondra.collection (c : CtxCore UrlVal) (name : String) : Sondra :=
  Sondra.calculateUrl
    { c with
      collection := some name
      document := none
      method := none
      body := [] }

/-- `Sondra.document` (src/sondra.js lines 359-365): select a document,
clearing method and the pending body, then recompute the URL. -/
def Sondra.document (c : CtxCore UrlVal) (pk : String) : Sondra :=
  Sondra.calculateUrl
    { c with
      document := some pk
      method := none
      body := [] }

/-- `Sondra.method` (src/sondra.js lines 367-373): select a method, switch
the request verb to POST, clear the pending body, then recompute the URL. -/
def Sondra.method (c : CtxCore UrlVal) (name : String) : Sondra :=
  Sondra.calculateUrl
    { c with
      requestMethod := "POST"
      method := some name
      body := [] }

example :
    (Sondra.method (Sondra.app (Sondra.suite DefaultContext "http" "localhost" "5000") "auth")
        "login").url
      = .str "http://localhost:5000/api/auth.login;format=json" := by rfl

example :
    (Sondra.app (Sondra.suite DefaultContext "http" "localhost" "5000") "auth").url
      = .str "http://localhost:5000/api/auth;format=json" := by rfl

/-- Minimal JSON string escaping (backslash and double quote), used by the
model of `JSON.stringify`. -/
def jsonEscapeChar (c : Char) : String :=
  if c = '\\' then "\\\\"
  else if c = '"' then "\\\""
  else String.singleton c

/-- Escape a whole string for inclusion in JSON output. -/
def jsonEscape (s : String) : String :=
  String.join (s.toList.map jsonEscapeChar)

/-- Model of JavaScript `JSON.stringify` on the `JVal` values the client
serializes (object key order preserved). -/
def jsonStringify : JVal → String
  | .null => "null"
  | .bool true => "true"
  | .bool false => "false"
  | .num n => toString n
  | .str s => "\"" ++ jsonEscape s ++ "\""
  | .arr xs =>
      "[" ++ String.intercalate "," (xs.attach.map (fun x => jsonStringify x.1)) ++ "]"
  | .obj fs =>
      "\x7b" ++
        String.intercalate ","
          (fs.attach.map (fun p =>
            "\"" ++ jsonEscape p.1.1 ++ "\":" ++ jsonStringify p.1.2)) ++
      "\x7d"
decreasing_by
  · have := List.sizeOf_lt_of_mem x.2
    simp at this ⊢
    omega
  · have := List.sizeOf_lt_of_mem p.2
    rcases p with ⟨⟨a, b⟩, hmem⟩
    simp at this ⊢
    omega

/-- `true` iff the value is JSON null (a JavaScript array `join` renders a
null element as the empty string). -/
def isNullJ : JVal → Bool
  | .null => true
  | _ => false

/-- JavaScript `String(v)` coercion of a value (as used when a body value is
appended to a `URLSearchParams`): arrays join their elements with `,`
(null elements render empty), plain objects render as `[object Object]`. -/
def jsToString : JVal → String
  | .null => "null"
  | .bool true => "true"
  | .bool false => "false"
  | .num n => toString n
  | .str s => s
  | .arr xs =>
      String.intercalate ","
        (xs.attach.map (fun x =>
          if isNullJ x.1 then "" else jsToString x.1))
  | .obj _ => "[object Object]"
decreasing_by
  have := List.sizeOf_lt_of_mem x.2
  simp at this ⊢
  omega

/-- Upper-case hexadecimal digit. -/
def hexDigit (n : Nat) : Char :=
  if n < 10 then Char.ofNat (48 + n) else Char.ofNat (55 + n)

/-- The UTF-8 bytes of a character, computed from its code point. -/
def utf8Bytes (c : Char) : List Nat :=
  let n := c.toNat
  if n < 0x80 then [n]
  else if n < 0x800 then [0xC0 + n / 64, 0x80 + n % 64]
  else if n < 0x10000 then [0xE0 + n / 4096, 0x80 + (n / 64) % 64, 0x80 + n % 64]
  else [0xF0 + n / 262144, 0x80 + (n / 4096) % 64, 0x80 + (n / 64) % 64, 0x80 + n % 64]

/-- `application/x-www-form-urlencoded` encoding of one character, as
performed by `URLSearchParams.toString()`: alphanumerics and `*-._`
unchanged, space as `+`, everything else percent-encoded per UTF-8 byte. -/
def formEncodeChar (c : Char) : String :=
  if c.isAlphanum ∨ c = '*' ∨ c = '-' ∨ c = '.' ∨ c = '_' then String.singleton c
  else if c = ' ' then "+"
  else String.join ((utf8Bytes c).map (fun b =>
    "%" ++ String.singleton (hexDigit (b / 16)) ++ String.singleton (hexDigit (b % 16))))

/-- `application/x-www-form-urlencoded` encoding of a whole string. -/
def formEncode (s : String) : String :=
  String.join (s.toList.map formEncodeChar)

/-- `URLSearchParams.toString()` over entries appended in order. -/
def searchParamsToString (entries : List (String × String)) : String :=
  String.intercalate "&" (entries.map (fun p => formEncode p.1 ++ "=" ++ formEncode p.2))

/-- JavaScript `_.extend({}, a, b)` / Immutable `a.merge(b)` on ordered
key-value maps: keys of `a` keep their positions (values overridden by `b`
where present), keys only in `b` are appended in their order. -/
def extendAssoc (a b : List (String × JVal)) : List (String × JVal) :=
  (a.map (fun p => match b.lookup p.1 with
    | some v => (p.1, v)
    | none => p)) ++
  b.filter (fun p => (a.lookup p.1).isNone)

/-- Immutable `OrderedMap.set`: replace the value in place when the key
exists, append the entry otherwise. -/
def setKeyAssoc (m : List (String × JVal)) (k : String) (v : JVal) : List (String × JVal) :=
  if (m.lookup k).isSome then
    m.map (fun p => if p.1 = k then (k, v) else p)
  else m ++ [(k, v)]

/-- `QuerySet.start` (src/sondra.js lines 179-181). -/
def QuerySet.start (q : List (String × JVal)) (x : Int) : List (String × JVal) :=
  setKeyAssoc q "start" (.num x)

/-- `QuerySet.limit` (src/sondra.js lines 187-189). -/
def QuerySet.limit (q : List (String × JVal)) (x : Int) : List (String × JVal) :=
  setKeyAssoc q "limit" (.num x)

/-- The composite properties serialized to JSON text by the cooked render
(`jsonProps` in `QuerySet.value`). -/
def qsJsonProps : List String := ["flt", "agg", "geo", "keys"]

/-- The scalar properties passed through unserialized by the cooked render
(`bareProps` in `QuerySet.value`). -/
def qsBareProps : List String := ["index", "start", "limit", "end"]

/-- `QuerySet.value` (src/sondra.js lines 239-260).  With `cook = true`
(the wire render, default) the composite properties present in the query are
emitted as `JSON.stringify` text and the scalar properties raw, in the fixed
`jsonProps`-then-`bareProps` order; with `cook = false` (the plain render)
the whole underlying structure is returned unserialized. -/
def QuerySet.value (q : List (String × JVal)) (cook : Bool := true) : List (String × JVal) :=
  if cook then
    (qsJsonProps.filterMap (fun p => (q.lookup p).map (fun v => (p, JVal.str (jsonStringify v))))) ++
    (qsBareProps.filterMap (fun p => (q.lookup p).map (fun v => (p, v))))
  else
    q

/-- Headers rendered as a JSON-like object (for placement among request
options). -/
def headersVal (hs : List (String × String)) : JVal :=
  .obj (hs.map (fun p => (p.1, JVal.str p.2)))

/-- A fully built transport request: the fetch target (`url` plus, for GET,
the form-encoded query string appended after `?`) and the request options
object. -/
inductive RequestBuilt : Type where
  | getReq (url : UrlVal) (queryString : String) (options : List (String × JVal))
  | payloadReq (url : UrlVal) (options : List (String × JVal))

/-- The request `Sondra.call` builds (src/sondra.js lines 395-412): for
non-GET verbs the body fields extended with the wire-rendered QuerySet
fields, JSON-serialized (or `null` when empty) as the payload; for GET the
body fields extended with the plain-rendered QuerySet fields, form-encoded
into the query string. -/
def callRequest (c : CtxCore UrlVal) : RequestBuilt :=
  if c.requestMethod ≠ "GET" then
    let queryBody := extendAssoc c.body (QuerySet.value c.querySet)
    let requestBody : JVal :=
      if queryBody.length = 0 then .null else .str (jsonStringify (.obj queryBody))
    .payloadReq c.url
      (extendAssoc c.additionalRequestOptions
        [("method", .str c.requestMethod), ("body", requestBody),
         ("mode", .str c.mode), ("compress", .bool c.compress),
         ("headers", headersVal c.headers)])
  else
    let queryBody := extendAssoc c.body (QuerySet.value c.querySet false)
    let requestBody := searchParamsToString (queryBody.map (fun p => (p.1, jsToString p.2)))
    .getReq c.url requestBody
      (extendAssoc c.additionalRequestOptions
        [("method", .str c.requestMethod),
         ("mode", .str c.mode), ("compress", .bool c.compress),
         ("headers", headersVal c.headers)])

/-- The request `Sondra.robustCall` builds (src/sondra.js lines 480-489):
identical to `callRequest` except that only the body fields are used — the
attached QuerySet is never consulted. -/
def robustRequest (c : CtxCore UrlVal) : RequestBuilt :=
  if c.requestMethod ≠ "GET" then
    let requestBody : JVal :=
      if c.body.length = 0 then .null else .str (jsonStringify (.obj c.body))
    .payloadReq c.url
      (extendAssoc c.additionalRequestOptions
        [("method", .str c.requestMethod), ("body", requestBody),
         ("mode", .str c.mode), ("compress", .bool c.compress),
         ("headers", headersVal c.headers)])
  else
    let requestBody := searchParamsToString (c.body.map (fun p => (p.1, jsToString p.2)))
    .getReq c.url requestBody
      (extendAssoc c.additionalRequestOptions
        [("method", .str c.requestMethod),
         ("mode", .str c.mode), ("compress", .bool c.compress),
         ("headers", headersVal c.headers)])

/-- The outcome of one physical transport exchange: either a response was
received (carrying a status and a JSON-parsable body), or no response was
obtained (the fetch promise rejected with a raw error value carrying an
optional `status` property, `0` standing for "absent"). -/
inductive FetchOutcome : Type where
  | response (status : Nat) (body : JVal)
  | noResponse (errStatus : Nat) (error : JVal)

/-- `rsp.ok`: status in the 2xx range. -/
def statusOk (status : Nat) : Bool := 200 ≤ status ∧ status < 300

/-- The settlement of `Sondra.call`'s promise (src/sondra.js lines 414-420)
as a function of the fetch outcome.  The chain is
`fetch(...).then(handler).catch(err => Promise.reject([0, err]))`:
the `then` handler resolves with the parsed body on a 2xx response and
produces the rejection `[rsp.status, parsedBody]` otherwise; the trailing
`catch` then wraps EVERY rejection reaching it — including the one produced
by the `then` handler — as `[0, err]`. -/
def callResponseChain (o : FetchOutcome) : Except JVal JVal :=
  let afterThen : Except JVal JVal :=
    match o with
    | .response status body =>
        if statusOk status then .ok body
        else .error (.arr [.num status, body])
    | .noResponse _ e => .error e
  match afterThen with
  | .ok v => .ok v
  | .error err => .error (.arr [.num 0, err])

/-- The host environment's connectivity signal as read by `Sondra._isOnline`
(src/sondra.js lines 321-338): `navigator.connection.type` may be absent
(`noSignal`), present with a value other than `Connection.NONE`
(`signalOther`), or present and equal to `Connection.NONE` (`signalNone`,
the environment affirmatively reports no connectivity). -/
inductive ConnState : Type where
  | noSignal
  | signalOther
  | signalNone

/-- `Sondra._isOnline` (src/sondra.js lines 321-338): when the environment
exposes no connectivity signal, or a signal other than "no connection", the
result is that of the HEAD ping request; when the environment affirmatively
reports no connectivity, reject with `"not online"` without pinging. -/
def isOnline (conn : ConnState) (ping : Except JVal Unit) : Except JVal Unit :=
  match conn with
  | .noSignal => ping
  | .signalOther => ping
  | .signalNone => .error (.str "not online")

/-- The `actionOnFail` failure policy of `robustCall`: the three documented
string values, or any other string (rejected by the `switch` default). -/
inductive Policy : Type where
  | defer
  | fail
  | ignore
  | unknownAction (s : String)

/-- One environment event consumed by a resilient call: the conditions met
by a connectivity probe, or the outcome of a physical fetch. -/
inductive TraceEvent : Type where
  | probe (conn : ConnState) (ping : Except JVal Unit)
  | fetchEv (o : FetchOutcome)

/-- A value with which some invocation's promise is settled:
`success id data` models resolution with `{deferredRequestId, data}`,
`nullResult` models resolution with `null` (the `ignore` policy), and
`failure id url status error` models rejection with
`{deferredRequestId, url, status, error}`. -/
inductive RVal : Type where
  | success (id : Nat) (data : JVal)
  | nullResult
  | failure (id : Nat) (url : String) (status : Nat) (error : JVal)

/-- The fate of one invocation's promise: fulfilled, rejected, or never
settled (neither `resolve` nor `reject` is ever called on it). -/
inductive Settle : Type where
  | fulfilledWith (v : RVal)
  | rejectedWith (v : RVal)
  | pending

/-- `true` iff the settlement is a fulfillment. -/
def Settle.isFulfilled : Settle → Bool
  | .fulfilledWith _ => true
  | _ => false

/-- An observable step of the resilient state machine, in temporal order:
a transient-error observer invocation (`temporaryErrorCallback`), a physical
fetch being issued (with the issuing invocation's request id and attempt
index), or a `resolve`/`reject` call on some invocation's promise. -/
inductive LogEntry : Type where
  | observerCall (id : Nat) (url : String) (error : JVal)
  | attempt (id : Nat) (n : Nat)
  | resolvedEntry (v : RVal)
  | rejectedEntry (v : RVal)

/-- The result of running one `robustCall` invocation (together with every
invocation it spawns) against a trace of environment events: the settlement
of THIS invocation's promise, the combined observable log, the unconsumed
remainder of the trace, and the final value of the process-wide
`nextDeferredRequestId` counter. -/
structure RunResult : Type where
  settle : Settle
  log : List LogEntry
  rest : List TraceEvent
  counter : Nat

/-- The two phases of one `robustCall` invocation: `probing` (about to run
`_isOnline`, request id not yet assigned — `rqid` is the `_rqid` parameter)
and `sending` (probe passed, about to issue the real fetch with the assigned
request id). -/
inductive Phase : Type where
  | probing (rqid : Option Nat)
  | sending (id : Nat)

/-- The resilient state machine of `Sondra.robustCall`
(src/sondra.js lines 471-529), interpreted against a trace of environment
events with a fuel bound, threading the process-wide
`nextDeferredRequestId` counter.

`probing` phase: the invocation assigns
`deferredRequestId = _rqid || nextDeferredRequestId++`, then runs
`_isOnline()` on the head probe event.  On probe failure it invokes the
observer, (after the retry delay) re-invokes `robustCall` with the SAME
attempt index and the SAME request id, and — because the executor chains
`catch` before `then` — performs its own fetch afterwards if and only if
the inner invocation's promise fulfilled; if the inner promise rejected or
never settled, this invocation's promise is never settled.  On probe
success it proceeds directly to the `sending` phase.

`sending` phase (src/sondra.js lines 500-523): the fetch is issued
(consuming the head fetch event).  A 2xx response resolves this
invocation's promise with `{deferredRequestId, data}`; a non-2xx response
rejects it immediately with `{deferredRequestId, url, status, error}` — no
policy consulted, no observer, no retry.  A response-less failure whose raw
error carries a positive `status` reaches `Promise.reject` (not the
executor's `reject`), so the invocation's promise is never settled; with
status 0 the failure policy decides: `defer` invokes the observer and
re-invokes `robustCall` with attempt index `_n + 1`, policy
`_n < maxTries ? "defer" : "fail"` and NO request id (`_rqid` is not passed
at src/sondra.js line 515), leaving this invocation's promise forever
pending; `fail` rejects with status 0; `ignore` resolves with `null`; any
other policy throws inside the handler, never settling the promise. -/
def runStep (url : String) (maxTries : Nat) :
    Nat → Phase → Policy → Nat → Nat → List TraceEvent → Option RunResult
  | 0, _, _, _, _, _ => none
  | fuel + 1, .probing rqid, pol, n, counter, trace =>
    let id := rqid.getD counter
    let counter1 := if rqid.isSome then counter else counter + 1
    match trace with
    | .probe conn ping :: rest =>
      match isOnline conn ping with
      | .error e =>
        match runStep url maxTries fuel (.probing (some id)) pol n counter1 rest with
        | none => none
        | some inner =>
          if inner.settle.isFulfilled then
            match runStep url maxTries fuel (.sending id) pol n inner.counter inner.rest with
            | none => none
            | some outer =>
              some { settle := outer.settle
                     log := .observerCall id url e :: inner.log ++ outer.log
                     rest := outer.rest
                     counter := outer.counter }
          else
            some { settle := .pending
                   log := .observerCall id url e :: inner.log
                   rest := inner.rest
                   counter := inner.counter }
      | .ok _ => runStep url maxTries fuel (.sending id) pol n counter1 rest
    | _ => none
  | fuel + 1, .sending id, pol, n, counter, trace =>
    match trace with
    | .fetchEv o :: rest =>
      match o with
      | .response status body =>
        if statusOk status then
          some { settle := .fulfilledWith (.success id body)
                 log := [.attempt id n, .resolvedEntry (.success id body)]
                 rest := rest
                 counter := counter }
        else
          some { settle := .rejectedWith (.failure id url status body)
                 log := [.attempt id n, .rejectedEntry (.failure id url status body)]
                 rest := rest
                 counter := counter }
      | .noResponse errStatus error =>
        if errStatus > 0 then
          some { settle := .pending
                 log := [.attempt id n]
                 rest := rest
                 counter := counter }
        else
          match pol with
          | .defer =>
            let pol1 := if n < maxTries then Policy.defer else Policy.fail
            match runStep url maxTries fuel (.probing none) pol1 (n + 1) counter rest with
            | none => none
            | some inner =>
              some { settle := .pending
                     log := .attempt id n :: .observerCall id url error :: inner.log
                     rest := inner.rest
                     counter := inner.counter }
          | .fail =>
            some { settle := .rejectedWith (.failure id url 0 error)
                   log := [.attempt id n, .rejectedEntry (.failure id url 0 error)]
                   rest := rest
                   counter := counter }
          | .ignore =>
            some { settle := .fulfilledWith .nullResult
                   log := [.attempt id n, .resolvedEntry .nullResult]
                   rest := rest
                   counter := counter }
          | .unknownAction _ =>
            some { settle := .pending
                   log := [.attempt id n]
                   rest := rest
                   counter := counter }
    | _ => none

/-- One invocation of `Sondra.robustCall` starting at the probing phase,
with the source's parameters (failure policy, attempt index `_n`, optional
request id `_rqid`). -/
def runRobust (url : String) (maxTries : Nat) (pol : Policy) (n : Nat)
    (rqid : Option Nat) (counter : Nat) (trace : List TraceEvent)
    (fuel : Nat) : Option RunResult :=
  runStep url maxTries fuel (.probing rqid) pol n counter trace

/-- A top-level `robustCall()` invocation with the source defaults
(`actionOnFail = "defer"`, `_n = 0`, `_rqid = null`), run against a trace
with ample fuel. -/
def robustCallModel (url : String) (maxTries : Nat) (counter : Nat)
    (trace : List TraceEvent) : Option RunResult :=
  runRobust url maxTries .defer 0 none counter trace (2 * trace.length + 1)

/-- The physical fetch attempts recorded in a log: for each, the issuing
invocation's (request id, attempt index), in temporal order. -/
def attemptsOf (log : List LogEntry) : List (Nat × Nat) :=
  log.filterMap (fun e => match e with
    | .attempt id n => some (id, n)
    | _ => none)

/-- The transient-error observer invocations recorded in a log: for each,
the request id passed to the observer, in temporal order. -/
def observerIdsOf (log : List LogEntry) : List Nat :=
  log.filterMap (fun e => match e with
    | .observerCall id _ _ => some id
    | _ => none)

/-- A probe event that succeeds (no connectivity signal, ping succeeds). -/
def probeOk : TraceEvent := .probe .noSignal (.ok ())

/-- A fetch event for a transport failure with no response. -/
def failEv (err : JVal) : TraceEvent := .fetchEv (.noResponse 0 err)

/-- A trace of `k` consecutive physical attempts that all fail with no
response: each attempt is a successful probe followed by a response-less
transport failure. -/
def failTrace (k : Nat) (err : JVal) : List TraceEvent :=
  match k with
  | 0 => []
  | k + 1 => probeOk :: failEv err :: failTrace k err

/-- The observable log of a defer-retry chain in which every attempt fails
with no response: `d` counts the defer retries still allowed before the
policy flips to `fail` (`d = maxTries - n` for the invocation at attempt
index `n`); the chain ends with the forced-`fail` invocation's rejection. -/
def deferChainLog (url : String) (err : JVal) : Nat → Nat → Nat → List LogEntry
  | 0, n, ctr =>
      [.attempt ctr n, .observerCall ctr url err,
       .attempt (ctr + 1) (n + 1),
       .rejectedEntry (.failure (ctr + 1) url 0 err)]
  | d + 1, n, ctr =>
      .attempt ctr n :: .observerCall ctr url err :: deferChainLog url err d (n + 1) (ctr + 1)

/-- One navigation step over a context: selecting an app, a collection, a
document or a method. -/
inductive NavStep : Type where
  | app (name : String)
  | collection (name : String)
  | document (name : String)
  | method (name : String)
deriving DecidableEq

/-- The name carried by a navigation step. -/
def NavStep.nameOf : NavStep → String
  | .app n => n
  | .collection n => n
  | .document n => n
  | .method n => n

/-- Apply one navigation step to a context. -/
def applyNav (c : CtxCore UrlVal) : NavStep → Sondra
  | .app n => Sondra.app c n
  | .collection n => Sondra.collection c n
  | .document n => Sondra.document c n
  | .method n => Sondra.method c n

/-- Apply a navigation sequence left to right. -/
def applyNavSeq (c : CtxCore UrlVal) (steps : List NavStep) : Sondra :=
  steps.foldl applyNav c

/-- An optional selector is either unselected or holds a nonempty name. -/
def selectorOk : Option String → Bool
  | none => true
  | some s => s ≠ ""

/-- Every selector of the context is either unselected or a nonempty name
(so JavaScript truthiness coincides with being selected). -/
def navFieldsOk (c : CtxCore UrlVal) : Bool :=
  selectorOk c.app && selectorOk c.collection && selectorOk c.document && selectorOk c.method

/-- Modelled from the spec: the URL layout of section 6 —
`protocol://host:port/` then the base path segments joined by `/`, then
`/app` when an app is selected, `/collection` when a collection is
selected, `/document` when a document is selected, then `.method` when a
method is selected, then `;` and the response-format options rendered as
escaped `key=value` pairs joined by `;` in insertion order.  Stated with
"selected" meaning the field holds a value, for comparison against the
source-derived `calcUrlString`. -/
def specNavUrl (c : CtxCore UrlVal) : String :=
  c.protocol ++ "://" ++ c.host ++ ":" ++ c.port ++ "/" ++
    String.intercalate "/" c.basePath ++
    (match c.app with | some a => "/" ++ a | none => "") ++
    (match c.collection with | some k => "/" ++ k | none => "") ++
    (match c.document with | some d => "/" ++ d | none => "") ++
    (match c.method with | some m => "." ++ m | none => "") ++
    ";" ++ responseFormat c.params

/-- The query string of a built request (empty for non-GET requests). -/
def RequestBuilt.queryStringOf : RequestBuilt → String
  | .getReq _ qs _ => qs
  | .payloadReq _ _ => ""

/-- `Sondra.query` with an argument (src/sondra.js lines 387-393): set the
attached QuerySet, returning a new context (the no-argument getter form is
the identity on the field and is not modelled separately). -/
def Sondra.query (c : CtxCore UrlVal) (querySet : List (String × JVal)) : Sondra :=
  { c with querySet := querySet }

/-- A concrete GET context as built in the repository's own tests:
`new Sondra().suite('http','localhost',5000).app('core').collection('certifications')`. -/
def certCtx : Sondra :=
  Sondra.collection (Sondra.app (Sondra.suite DefaultContext "http" "localhost" "5000") "core")
    "certifications"

/-- C1: the claim "the request id is assigned exactly once, on the first
invocation, and every subsequent physical attempt — probe retries and
transport-failure retries alike — carries the same request id" fails on the
code: the defer retry at src/sondra.js line 515 does not pass `_rqid`, so
the second physical attempt of one logical call allocates a fresh id.
With the counter at 1 and a transport failure followed by success, the two
physical attempts carry ids 1 and 2, and the terminal resolution carries
id 2, not the id 1 assigned on the first invocation. -/
theorem c1_transport_retry_allocates_fresh_id :
    (robustCallModel "u" 2 1
        [probeOk, failEv (.str "err"), probeOk, .fetchEv (.response 200 (.str "data"))]).map
        (fun r => (attemptsOf r.log, r.log.getLast?))
      = some ([(1, 0), (2, 1)], some (.resolvedEntry (.success 2 (.str "data")))) ∧
    (1 : Nat) ≠ 2 :=
  ⟨by rfl, by decide⟩

/-- C2: the claim "the promise returned by the original robustCall
invocation resolves with the request id and the parsed response data" fails
on the code: under the defer policy with `maxTries = 2`, one transport
failure (`maxTries - 1`) followed by a 2xx response leaves the ORIGINAL
invocation's promise forever pending — the retry at src/sondra.js line 515
neither chains its result to the outer promise nor passes the request id,
so the resolution is delivered to the innermost retry's own promise under a
fresh id.  The transient-error observer is invoked exactly
`maxTries - 1 = 1` time, as the claim states. -/
theorem c2_original_promise_left_pending :
    (robustCallModel "u" 2 1
        [probeOk, failEv (.str "boom"), probeOk, .fetchEv (.response 200 (.str "ok"))]).map
        (fun r => (r.settle, observerIdsOf r.log, r.log.getLast?))
      = some (.pending, [1], some (.resolvedEntry (.success 2 (.str "ok")))) := by
  rfl

/-- C5: the claim "on a response received with a failure status the call
rejects with the pair (status, parsed error body)" fails on the code: the
chain `fetch(...).then(handler).catch(err => Promise.reject([0, err]))`
(src/sondra.js lines 414-420) routes the handler-produced rejection
`[status, body]` through the trailing catch, which wraps it again, so a 403
with body `"forbidden"` rejects with `[0, [403, "forbidden"]]` instead of
`[403, "forbidden"]`.  The 2xx and no-response cases behave as claimed. -/
theorem c5_call_wraps_application_error :
    callResponseChain (.response 403 (.str "forbidden"))
        = .error (.arr [.num 0, .arr [.num 403, .str "forbidden"]]) ∧
    callResponseChain (.response 403 (.str "forbidden"))
        ≠ .error (.arr [.num 403, .str "forbidden"]) ∧
    callResponseChain (.response 200 (.str "body")) = .ok (.str "body") ∧
    callResponseChain (.noResponse 0 (.str "netdown"))
        = .error (.arr [.num 0, .str "netdown"]) :=
  ⟨by rfl, by simp [callResponseChain, statusOk], by rfl, by rfl⟩

/-- C6: the claim "after every operation that changes connection fields —
including suite — the url field is a string equal to the pure URL function
of the new field values" fails on the code: `Sondra.suite`
(src/sondra.js lines 293-299) executes `s.set('url', s.calculateUrl())`,
and `calculateUrl()` returns a whole context, so the `url` field of the
suite result holds a context record, not a string; moreover the `basePath`
argument of `suite` is accepted but ignored.  By contrast `app` (and the
other selection operations) do leave a string url. -/
theorem c6_suite_leaves_non_string_url :
    UrlVal.isStr (Sondra.suite DefaultContext "http" "localhost" "5000" DefaultBasePath).url
        = false ∧
    (Sondra.suite DefaultContext "http" "localhost" "5000" ["elsewhere"]).basePath = ["api"] ∧
    UrlVal.isStr (Sondra.app DefaultContext "auth").url = true :=
  ⟨by rfl, by rfl, by rfl⟩

/-- C10: the request built by `robustCall` depends only on the body fields
and never on the attached QuerySet: setting any QuerySet on any context
leaves the resilient request unchanged, whereas `call`'s request on a
concrete GET context does change when a QuerySet is attached. -/
theorem c10_robust_request_ignores_query_set :
    (∀ (c : CtxCore UrlVal) (q : List (String × JVal)),
        robustRequest (Sondra.query c q) = robustRequest c) ∧
    callRequest (Sondra.query certCtx (QuerySet.start [] 0)) ≠ callRequest certCtx :=
  ⟨fun _ _ => rfl,
   fun h => absurd (congrArg RequestBuilt.queryStringOf h) (by decide)⟩

/-- C4: a physical attempt that obtains a response with a non-2xx status
(and a parsable body) rejects the invocation's promise immediately with
`{requestId, url, status, error}`, for every failure policy, every attempt
index, and any remaining budget: no retry happens (the rest of the trace is
untouched), and the transient-error observer is never invoked (the log
holds only the attempt and the rejection). -/
theorem c4_application_error_rejects_immediately
    (f : Nat) (url : String) (maxTries : Nat) (pol : Policy) (n : Nat)
    (rqid : Option Nat) (ctr status : Nat) (body : JVal) (rest : List TraceEvent)
    (h : statusOk status = false) :
    runRobust url maxTries pol n rqid ctr
        (probeOk :: .fetchEv (.response status body) :: rest) (f + 2)
      = some { settle := .rejectedWith (.failure (rqid.getD ctr) url status body)
               log := [.attempt (rqid.getD ctr) n,
                       .rejectedEntry (.failure (rqid.getD ctr) url status body)]
               rest := rest
               counter := if rqid.isSome then ctr else ctr + 1 } := by
  simp [runRobust, runStep, probeOk, isOnline, h]

/-- Instance of `c4_application_error_rejects_immediately`: a 403 response
on the very first attempt of a fresh resilient call. -/
theorem c4_application_error_witness :
    statusOk 403 = false ∧
    runRobust "u" 10 .defer 0 none 1
        (probeOk :: .fetchEv (.response 403 (.str "forbidden")) :: []) 2
      = some { settle := .rejectedWith (.failure 1 "u" 403 (.str "forbidden"))
               log := [.attempt 1 0, .rejectedEntry (.failure 1 "u" 403 (.str "forbidden"))]
               rest := []
               counter := 2 } :=
  ⟨by rfl,
   c4_application_error_rejects_immediately 0 "u" 10 .defer 0 none 1 403 (.str "forbidden") []
     (by rfl)⟩

/-- C8: selecting an app clears collection, document, method and the
pending body; selecting a collection clears document, method and the body;
selecting a document clears method and the body; selecting a method clears
the body and switches the request verb to POST; and each selection returns
a context whose `url` field is the string recomputed by the pure URL
function from its own new field values.  (The original context is untouched
by construction: every operation is a pure function on immutable values.) -/
theorem c8_selection_clears_finer_selectors (c : CtxCore UrlVal) (name : String) :
    (CtxCore.app (Sondra.app c name) = some name ∧
     CtxCore.collection (Sondra.app c name) = none ∧
     CtxCore.document (Sondra.app c name) = none ∧
     CtxCore.method (Sondra.app c name) = none ∧
     CtxCore.body (Sondra.app c name) = [] ∧
     CtxCore.url (Sondra.app c name) = .str (calcUrlString (Sondra.app c name))) ∧
    (CtxCore.collection (Sondra.collection c name) = some name ∧
     CtxCore.document (Sondra.collection c name) = none ∧
     CtxCore.method (Sondra.collection c name) = none ∧
     CtxCore.body (Sondra.collection c name) = [] ∧
     CtxCore.url (Sondra.collection c name) = .str (calcUrlString (Sondra.collection c name))) ∧
    (CtxCore.document (Sondra.document c name) = some name ∧
     CtxCore.method (Sondra.document c name) = none ∧
     CtxCore.body (Sondra.document c name) = [] ∧
     CtxCore.url (Sondra.document c name) = .str (calcUrlString (Sondra.document c name))) ∧
    (CtxCore.method (Sondra.method c name) = some name ∧
     CtxCore.requestMethod (Sondra.method c name) = "POST" ∧
     CtxCore.body (Sondra.method c name) = [] ∧
     CtxCore.url (Sondra.method c name) = .str (calcUrlString (Sondra.method c name))) :=
  ⟨⟨rfl, rfl, rfl, rfl, rfl, rfl⟩,
   ⟨rfl, rfl, rfl, rfl, rfl⟩,
   ⟨rfl, rfl, rfl, rfl⟩,
   ⟨rfl, rfl, rfl, rfl⟩⟩


/-- On a context whose selectors are all unselected-or-nonempty, the URL
string computed by the source (`calcUrlString`, truthiness-guarded) equals
the spec's layout formula (`specNavUrl`, presence-guarded). -/
theorem calc_eq_spec (c : CtxCore UrlVal) (h : navFieldsOk c = true) :
    calcUrlString c = specNavUrl c := by
  unfold navFieldsOk selectorOk at h
  unfold calcUrlString specNavUrl truthyStr
  cases capp : c.app <;> cases ccoll : c.collection <;>
    cases cdoc : c.document <;> cases cmeth : c.method <;>
    simp_all [String.append_assoc]

/-- Every navigation step leaves a context whose `url` field is the string
recomputed from its own field values. -/
theorem url_applyNav (c : CtxCore UrlVal) (s : NavStep) :
    CtxCore.url (applyNav c s) = .str (calcUrlString (applyNav c s)) := by
  cases s <;> rfl

/-- A navigation step with a nonempty name preserves the
unselected-or-nonempty property of the selectors. -/
theorem navOk_applyNav (c : CtxCore UrlVal) (s : NavStep) (hc : navFieldsOk c = true)
    (hs : s.nameOf ≠ "") : navFieldsOk (applyNav c s) = true := by
  cases s <;>
    simp_all [applyNav, Sondra.app, Sondra.collection, Sondra.document, Sondra.method,
      Sondra.calculateUrl, navFieldsOk, selectorOk, NavStep.nameOf]

/-- A navigation sequence with nonempty names preserves the
unselected-or-nonempty property of the selectors. -/
theorem navOk_applyNavSeq : ∀ (steps : List NavStep) (c : CtxCore UrlVal),
    navFieldsOk c = true → (∀ s ∈ steps, s.nameOf ≠ "") →
    navFieldsOk (applyNavSeq c steps) = true := by
  intro steps
  induction steps with
  | nil => intro c hc _; simpa [applyNavSeq] using hc
  | cons s rest ih =>
    intro c hc hs
    have h1 : s.nameOf ≠ "" := hs s (by simp)
    have h2 : ∀ x ∈ rest, NavStep.nameOf x ≠ "" := fun x hx => hs x (by simp [hx])
    simpa [applyNavSeq] using ih (applyNav c s) (navOk_applyNav c s hc h1) h2

/-- After any nonempty navigation sequence the `url` field is the string
recomputed from the resulting context's own field values. -/
theorem url_applyNavSeq : ∀ (steps : List NavStep) (c : CtxCore UrlVal) (s : NavStep),
    CtxCore.url (applyNavSeq c (s :: steps))
      = .str (calcUrlString (applyNavSeq c (s :: steps))) := by
  intro steps
  induction steps with
  | nil => intro c s; simpa [applyNavSeq] using url_applyNav c s
  | cons s2 rest ih =>
    intro c s
    simpa [applyNavSeq] using ih (applyNav c s) s2

/-- C9: for every nonempty navigation sequence (selections with nonempty
names) over a context whose selectors are unselected-or-nonempty, the
resulting context's `url` field equals the spec's URL-layout formula
(scheme/host/port, base path segments joined by `/`, `/app`,
`/collection`, `/document` for the selected selectors, `.method` when a
method is selected, then `;` and the escaped format parameters joined by
`;` in insertion order). -/
theorem c9_nav_url (c : CtxCore UrlVal) (steps : List NavStep)
    (h1 : steps ≠ []) (h2 : ∀ s ∈ steps, s.nameOf ≠ "")
    (h3 : navFieldsOk c = true) :
    CtxCore.url (applyNavSeq c steps) = .str (specNavUrl (applyNavSeq c steps)) := by
  obtain ⟨s, rest, rfl⟩ := List.exists_cons_of_ne_nil h1
  rw [url_applyNavSeq rest c s, calc_eq_spec _ (navOk_applyNavSeq _ _ h3 h2)]

/-- Instance of `c9_nav_url`: the app-then-method navigation of the
repository's own tests, starting from the default context. -/
theorem c9_nav_url_witness :
    ([NavStep.app "auth", NavStep.method "login"] ≠ ([] : List NavStep)) ∧
    (∀ s ∈ [NavStep.app "auth", NavStep.method "login"], s.nameOf ≠ "") ∧
    navFieldsOk DefaultContext = true ∧
    CtxCore.url (applyNavSeq DefaultContext [NavStep.app "auth", NavStep.method "login"])
      = .str (specNavUrl (applyNavSeq DefaultContext [NavStep.app "auth", NavStep.method "login"])) :=
  ⟨by decide, by decide, by rfl,
   c9_nav_url DefaultContext [NavStep.app "auth", NavStep.method "login"] (by decide) (by decide)
     (by rfl)⟩

/-- The environment events of the `c7_probe_failure_witness` scenario after
the failing probe: a clean probe, the inner invocation's 2xx fetch, and the
outer invocation's repeated 2xx fetch. -/
def c7Rest : List TraceEvent :=
  [probeOk, .fetchEv (.response 200 (.str "d1")), .fetchEv (.response 200 (.str "d2"))]

/-- The full run result of the `c7_probe_failure_witness` scenario. -/
def c7Res : RunResult :=
  { settle := .fulfilledWith (.success 1 (.str "d2"))
    log := [.observerCall 1 "u" (.str "not online"),
            .attempt 1 0, .resolvedEntry (.success 1 (.str "d1")),
            .attempt 1 0, .resolvedEntry (.success 1 (.str "d2"))]
    rest := []
    counter := 2 }

/-- C7: when the connectivity probe of a resilient invocation fails
(including the environment affirmatively reporting no connectivity), the
invocation first invokes the transient-error observer with
(requestId, url, error), then — after the retry delay — re-enters the
probing step as a recursive invocation with the SAME attempt index, the
SAME policy, and the SAME request id (`some (rqid.getD ctr)`), consuming no
attempt beforehand; and the probe failure never settles the call by itself:
if the recursive invocation's promise does not fulfill, this invocation's
promise stays pending with nothing after the inner log. -/
theorem c7_probe_failure (f : Nat) (url : String) (maxTries : Nat) (pol : Policy)
    (n : Nat) (rqid : Option Nat) (ctr : Nat) (rest : List TraceEvent)
    (conn : ConnState) (ping : Except JVal Unit) (e : JVal) (res : RunResult)
    (hprobe : isOnline conn ping = .error e)
    (hrun : runRobust url maxTries pol n rqid ctr (.probe conn ping :: rest) (f + 1) = some res) :
    ∃ inner more,
      runRobust url maxTries pol n (some (rqid.getD ctr))
          (if rqid.isSome then ctr else ctr + 1) rest f = some inner ∧
      res.log = .observerCall (rqid.getD ctr) url e :: inner.log ++ more ∧
      (inner.settle.isFulfilled = false → res.settle = .pending ∧ more = []) := by
  unfold runRobust at hrun ⊢
  rw [runStep] at hrun
  rw [hprobe] at hrun
  simp only at hrun
  cases hinner : runStep url maxTries f (.probing (some (rqid.getD ctr))) pol n
      (if rqid.isSome then ctr else ctr + 1) rest with
  | none =>
    rw [hinner] at hrun
    exact absurd hrun (by simp)
  | some inner =>
    rw [hinner] at hrun
    by_cases hful : inner.settle.isFulfilled
    · simp only [hful, if_true] at hrun
      cases houter : runStep url maxTries f (.sending (rqid.getD ctr)) pol n inner.counter
          inner.rest with
      | none => rw [houter] at hrun; exact absurd hrun (by simp)
      | some outer =>
        rw [houter] at hrun
        simp only [Option.some.injEq] at hrun
        refine ⟨inner, outer.log, rfl, ?_, ?_⟩
        · rw [← hrun]
        · intro hcon; rw [hcon] at hful; exact absurd hful (by simp)
    · simp only [Bool.not_eq_true] at hful
      simp only [hful, Bool.false_eq_true, if_false, Option.some.injEq] at hrun
      refine ⟨inner, [], rfl, ?_, ?_⟩
      · rw [← hrun]; simp
      · intro _; rw [← hrun]; exact ⟨rfl, rfl⟩

/-- Instance of `c7_probe_failure`: the environment affirmatively reports
no connectivity on the first probe; the retry (same attempt index 0, same
request id 1) then succeeds. -/
theorem c7_probe_failure_witness :
    isOnline .signalNone (.ok ()) = .error (.str "not online") ∧
    runRobust "u" 2 .defer 0 none 1 (.probe .signalNone (.ok ()) :: c7Rest) (5 + 1)
      = some c7Res ∧
    (∃ inner more,
        runRobust "u" 2 .defer 0 (some 1) 2 c7Rest 5 = some inner ∧
        c7Res.log = .observerCall 1 "u" (.str "not online") :: inner.log ++ more ∧
        (inner.settle.isFulfilled = false → c7Res.settle = .pending ∧ more = [])) :=
  ⟨rfl, rfl,
   c7_probe_failure 5 "u" 2 .defer 0 none 1 c7Rest .signalNone (.ok ())
     (.str "not online") c7Res rfl rfl⟩

/-- The retry-chain lemma behind the C3 analysis: a `defer` invocation at
attempt index `n` with `n + d = maxTries`, facing `d + 2` consecutive
response-less transport failures, spawns a chain of `d + 1` defer
invocations (each logging one attempt and one observer call, each
allocating a fresh request id) followed by one forced-`fail` invocation
that rejects; the spawning invocation's own promise stays pending, the
trailing trace is untouched, and the id counter advances by `d + 2`. -/
theorem run_defer_chain (url : String) (err : JVal) (M : Nat) :
    ∀ (d n ctr : Nat) (rest : List TraceEvent) (f : Nat),
      n + d = M → 2 * d + 5 ≤ f →
      runStep url M f (.probing none) .defer n ctr (failTrace (d + 2) err ++ rest)
        = some { settle := .pending
                 log := deferChainLog url err d n ctr
                 rest := rest
                 counter := ctr + (d + 2) } := by
  intro d
  induction d with
  | zero =>
    intro n ctr rest f hnd hf
    obtain ⟨g, rfl⟩ : ∃ g, f = g + 5 := ⟨f - 5, by omega⟩
    have hnM : ¬ n < M := by omega
    simp [failTrace, runStep, probeOk, failEv, isOnline, hnM, deferChainLog]
  | succ d ih =>
    intro n ctr rest f hnd hf
    obtain ⟨g, rfl⟩ : ∃ g, f = g + 2 := ⟨f - 2, by omega⟩
    have hnM : n < M := by omega
    have hrec := ih (n + 1) (ctr + 1) rest g (by omega) (by omega)
    rw [show failTrace (d + 1 + 2) err = probeOk :: failEv err :: failTrace (d + 2) err from rfl]
    simp [runStep, probeOk, failEv, isOnline, hnM, hrec, deferChainLog]
    omega

/-- `attemptsOf` steps over an attempt entry. -/
theorem attemptsOf_attempt_cons (id n : Nat) (l : List LogEntry) :
    attemptsOf (.attempt id n :: l) = (id, n) :: attemptsOf l := rfl

/-- `attemptsOf` skips an observer entry. -/
theorem attemptsOf_observer_cons (id : Nat) (u : String) (e : JVal) (l : List LogEntry) :
    attemptsOf (.observerCall id u e :: l) = attemptsOf l := rfl

/-- A failing defer chain with `d` retries remaining performs exactly
`d + 2` physical attempts. -/
theorem attempts_deferChainLog (url : String) (err : JVal) :
    ∀ d n ctr, (attemptsOf (deferChainLog url err d n ctr)).length = d + 2 := by
  intro d
  induction d with
  | zero => intro n ctr; rfl
  | succ d ih =>
    intro n ctr
    rw [deferChainLog, attemptsOf_attempt_cons, attemptsOf_observer_cons]
    simp [ih (n + 1) (ctr + 1)]

/-- A failing defer chain ends with the forced-`fail` invocation's
rejection `{requestId, url, status: 0, error}`. -/
theorem getLast_deferChainLog (url : String) (err : JVal) :
    ∀ d n ctr, (deferChainLog url err d n ctr).getLast?
      = some (.rejectedEntry (.failure (ctr + d + 1) url 0 err)) := by
  intro d
  induction d with
  | zero => intro n ctr; rfl
  | succ d ih =>
    intro n ctr
    have h := ih (n + 1) (ctr + 1)
    have harith : ctr + 1 + d + 1 = ctr + (d + 1) + 1 := by omega
    rw [harith] at h
    rw [deferChainLog]
    cases hd : deferChainLog url err d (n + 1) (ctr + 1) with
    | nil => rw [hd] at h; simp at h
    | cons x xs =>
      rw [hd] at h
      rw [List.getLast?_cons_cons, List.getLast?_cons_cons]
      exact h

/-- C3 counterexample: with `maxTries = 1` and every attempt failing with
no response, a resilient call performs 3 physical attempts — more than the
`maxTries + 1 = 2` the claim allows. -/
theorem c3_counterexample_attempt_bound :
    (robustCallModel "u" 1 1 (failTrace 3 (.str "down"))).map
        (fun r => (attemptsOf r.log).length) = some 3 ∧
    ¬ (3 ≤ 1 + 1) := ⟨by rfl, by decide⟩

/-- C3 as amended: each response-less transport failure under `defer`
retries with attempt index + 1 after invoking the observer; the next
attempt's policy is forced to `fail` once the current attempt index reaches
`maxTries`, so when every attempt fails with no response the call performs
exactly `maxTries + 2` physical attempts in total — the recursion
terminates, the trailing trace is never consumed, and the final
(forced-`fail`) invocation rejects with `{requestId, url, status: 0,
error}` (the ORIGINAL invocation's own promise is left pending, the defect
recorded under C2). -/
theorem c3_amended_defer_chain (M : Nat) (err : JVal) (url : String) (ctr : Nat)
    (rest : List TraceEvent) (f : Nat) (hf : 2 * M + 5 ≤ f) :
    ∃ res,
      runRobust url M .defer 0 none ctr (failTrace (M + 2) err ++ rest) f = some res ∧
      (attemptsOf res.log).length = M + 2 ∧
      res.rest = rest ∧
      res.log.getLast? = some (.rejectedEntry (.failure (ctr + M + 1) url 0 err)) ∧
      res.settle = .pending := by
  refine ⟨_, run_defer_chain url err M M 0 ctr rest f (by omega) hf, ?_, rfl, ?_, rfl⟩
  · exact attempts_deferChainLog url err M 0 ctr
  · exact getLast_deferChainLog url err M 0 ctr

/-- Instance of `c3_amended_defer_chain`: `maxTries = 1`, three failing
attempts, final rejection under request id 3. -/
theorem c3_amended_defer_chain_witness :
    2 * 1 + 5 ≤ 7 ∧
    (∃ res,
      runRobust "u" 1 .defer 0 none 1 (failTrace 3 (.str "down") ++ []) 7 = some res ∧
      (attemptsOf res.log).length = 3 ∧ res.rest = [] ∧
      res.log.getLast? = some (.rejectedEntry (.failure 3 "u" 0 (.str "down"))) ∧
      res.settle = .pending) :=
  ⟨by decide, c3_amended_defer_chain 1 (.str "down") "u" 1 [] 7 (by decide)⟩
